import Mathlib

/-!
Verification of the CAMARA API review validator
(`scripts/api_review_validator_v0_6.py`) and of the release-metadata
validator whose unit tests live in
`artifacts/metadata-schemas/scripts/test_validate_release_plan.py`.

Parsed YAML documents are embedded as a tree of mappings, sequences and
scalars (`Yaml` below); Python dictionaries become association lists that
keep insertion order, which is the order the Python code iterates in.
Where the Python code calls `.get`/`.keys`/`.values` on a value that the
surrounding code already guarantees to be a mapping (or a sequence), the
embedding uses total accessors that return the natural default on a
non-mapping (resp. non-sequence) value; well-formed parsed documents never
hit those defaults.
-/

namespace CamaraValidator

/-- Severity levels of `ValidationIssue` (class `Severity` in the source). -/
inductive Severity where
  | CRITICAL
  | MEDIUM
  | LOW
  | INFO
deriving DecidableEq, Repr

/-- API classification (class `APIType` in the source). -/
inductive APIType where
  | REGULAR
  | IMPLICIT_SUBSCRIPTION
  | EXPLICIT_SUBSCRIPTION
deriving DecidableEq, Repr

/-- One reported deviation (dataclass `ValidationIssue` in the source). -/
structure ValidationIssue where
  severity : Severity
  category : String
  description : String
  location : String := ""
  fix_suggestion : String := ""
deriving DecidableEq, Repr

mutual
/-- A parsed YAML document tree: scalars, mappings and sequences.
Mappings are association lists in insertion order (`YamlKVs`). -/
inductive Yaml where
  | nullV : Yaml
  | boolV : Bool → Yaml
  | intV : Int → Yaml
  | str : String → Yaml
  | map : YamlKVs → Yaml
  | list : YamlList → Yaml

inductive YamlKVs where
  | nil : YamlKVs
  | cons : String → Yaml → YamlKVs → YamlKVs

inductive YamlList where
  | nil : YamlList
  | cons : Yaml → YamlList → YamlList
end

/- Python `==` on parsed documents is structural equality of the trees;
the embedding compares mappings in document order (Python dictionary
equality ignores insertion order, which coincides with this on mappings
whose keys are listed in the same order, the case exercised here). -/
deriving instance DecidableEq for Yaml, YamlKVs, YamlList

/-- Dictionary lookup (`d[k]` / `d.get(k)`): first binding of the key wins. -/
def YamlKVs.find? : YamlKVs → String → Option Yaml
  | .nil, _ => none
  | .cons k v r, key => if k = key then some v else r.find? key

/-- Embeds `d.get(key, default)` on a parsed mapping; default on non-mappings. -/
def Yaml.getD (y : Yaml) (key : String) (dflt : Yaml) : Yaml :=
  match y with
  | .map kvs => (kvs.find? key).getD dflt
  | _ => dflt

/-- Embeds `key in d` on a parsed mapping. -/
def Yaml.hasKey (y : Yaml) (key : String) : Bool :=
  match y with
  | .map kvs => (kvs.find? key).isSome
  | _ => false

/-- Read a string scalar, with a default for anything else. -/
def Yaml.strD (y : Yaml) (dflt : String) : String :=
  match y with
  | .str s => s
  | _ => dflt

/-- Coerce to a sequence (empty on non-sequences). -/
def Yaml.listD (y : Yaml) : YamlList :=
  match y with
  | .list l => l
  | _ => .nil

/-- Coerce to a mapping (empty on non-mappings). -/
def Yaml.mapD (y : Yaml) : YamlKVs :=
  match y with
  | .map kvs => kvs
  | _ => .nil

/-- Python truthiness of a parsed YAML value (`if not x`). -/
def Yaml.truthy : Yaml → Bool
  | .nullV => false
  | .boolV b => b
  | .intV n => n != 0
  | .str s => s ≠ ""
  | .map .nil => false
  | .map _ => true
  | .list .nil => false
  | .list _ => true

/-- The keys of a mapping, in insertion order (`d.keys()`). -/
def YamlKVs.keys : YamlKVs → List String
  | .nil => []
  | .cons k _ r => k :: r.keys

/-! ### String helpers (embedding Python `str` operations and the regexes) -/

/-- Prefix test: `charsPre p l` is true when `p` is an initial segment
of `l` (Python `str.startswith` on character lists). -/
def charsPre : List Char → List Char → Bool
  | [], _ => true
  | _ :: _, [] => false
  | a :: as, b :: bs => a == b && charsPre as bs

/-- Substring test: `listContains l pat` is Python `pat in l`. -/
def listContains : List Char → List Char → Bool
  | [], pat => charsPre pat []
  | a :: t, pat => charsPre pat (a :: t) || listContains t pat

/-- Python `sub in s` on strings. -/
def strContains (s sub : String) : Bool :=
  listContains s.data sub.data

/-- Python `s.startswith(p)`. -/
def strStarts (s p : String) : Bool :=
  charsPre p.data s.data

/-- Python `str.lower()` (ASCII, as used on identifier-like names). -/
def strLower (s : String) : String :=
  ⟨s.data.map Char.toLower⟩

/-- Python `s.strip(c)` for a single strip character. -/
def stripChar (c : Char) (s : String) : String :=
  ⟨((s.data.dropWhile (· == c)).reverse.dropWhile (· == c)).reverse⟩

/-- Python `s.split(c)` on a single-character separator: keeps empty pieces,
`"".split(c) = [""]`. -/
def splitChar (c : Char) : List Char → List (List Char)
  | [] => [[]]
  | a :: rest =>
    if a == c then
      [] :: splitChar c rest
    else
      match splitChar c rest with
      | h :: t => (a :: h) :: t
      | [] => [[a]]

/-- Python `s.split(sep)` for a one-character separator, as strings. -/
def strSplitChar (c : Char) (s : String) : List String :=
  (splitChar c s.data).map fun l => ⟨l⟩

/-- Appending on the right preserves `charsPre`. -/
theorem charsPre_append (p q : List Char) : charsPre p (p ++ q) = true := by
  induction p with
  | nil => rfl
  | cons a as ih => simp [charsPre, ih]

/-- Substring containment holds for an explicit decomposition. -/
theorem listContains_of_append (pre pat post : List Char) :
    listContains (pre ++ pat ++ post) pat = true := by
  induction pre with
  | nil =>
      rw [List.nil_append]
      cases h : pat ++ post with
      | nil =>
          rcases List.append_eq_nil.mp h with ⟨h1, _⟩
          subst h1
          rfl
      | cons a t =>
          rw [listContains, ← h, charsPre_append]
          rfl
  | cons a pre ih =>
      rw [List.cons_append, List.cons_append, listContains]
      simp only [Bool.or_eq_true]
      right
      exact ih

/-- Python `s.endswith(p)`. -/
def strEnds (s p : String) : Bool :=
  charsPre p.data.reverse s.data.reverse

/-! ### API type classification (`_determine_api_type`, source lines 98-140) -/

/-- Embeds `path.endswith('/subscriptions') or '/subscriptions/' in path`. -/
def isSubscriptionsPath (path : String) : Bool :=
  strEnds path "/subscriptions" || strContains path "/subscriptions/"

/-- The loop `for path in paths.keys()` looking for a subscriptions path. -/
def hasSubscriptionsPath : YamlKVs → Bool
  | .nil => false
  | .cons k _ r => isSubscriptionsPath k || hasSubscriptionsPath r

/-- Embeds `isinstance(operation, dict) and 'callbacks' in operation`. -/
def opHasCallbacks (op : Yaml) : Bool :=
  match op with
  | .map kvs => (kvs.find? "callbacks").isSome
  | _ => false

/-- Inner loop `for operation in path_obj.values()`. -/
def pathObjHasCallbacks : YamlKVs → Bool
  | .nil => false
  | .cons _ v r => opHasCallbacks v || pathObjHasCallbacks r

/-- Outer loop `for path_obj in paths.values()`. -/
def anyPathHasCallbacks : YamlKVs → Bool
  | .nil => false
  | .cons _ v r => pathObjHasCallbacks v.mapD || anyPathHasCallbacks r

/-- Embeds `properties = schema.get('properties', {});
'sink' in properties or 'sinkCredential' in properties`. -/
def schemaHasSinkProp (schema : Yaml) : Bool :=
  let properties := schema.getD "properties" (.map .nil)
  properties.hasKey "sink" || properties.hasKey "sinkCredential"

/-- Loop `for schema_name, schema in schemas.items()` with the
`isinstance(schema, dict)` guard. -/
def anySchemaSinkProp : YamlKVs → Bool
  | .nil => false
  | .cons _ v r =>
    (match v with
     | .map _ => schemaHasSinkProp v
     | _ => false) || anySchemaSinkProp r

/-- Embeds `any('SinkCredential' in name for name in schemas.keys())`. -/
def anyKeyContains (kvs : YamlKVs) (sub : String) : Bool :=
  match kvs with
  | .nil => false
  | .cons k _ r => strContains k sub || anyKeyContains r sub

/-- Embeds `spec.get('info', {}).get('title', '').lower()`. -/
def apiTitleLower (spec : Yaml) : String :=
  strLower (((spec.getD "info" (.map .nil)).getD "title" (.str "")).strD "")

/-- Embeds `spec.get('paths', {})`. -/
def apiPaths (spec : Yaml) : YamlKVs :=
  (spec.getD "paths" (.map .nil)).mapD

/-- Embeds `spec.get('components', {}).get('schemas', {})`. -/
def apiSchemas (spec : Yaml) : YamlKVs :=
  ((spec.getD "components" (.map .nil)).getD "schemas" (.map .nil)).mapD

/-- Embeds `_determine_api_type` (source lines 98-140): priority-ordered
classification, first match wins, defaulting to `REGULAR`. -/
def _determine_api_type (spec : Yaml) : APIType :=
  let title := apiTitleLower spec
  let paths := apiPaths spec
  let schemas := apiSchemas spec
  if strContains title "subscription" then .EXPLICIT_SUBSCRIPTION
  else if hasSubscriptionsPath paths then .EXPLICIT_SUBSCRIPTION
  else if (schemas.find? "CloudEvent").isSome then .IMPLICIT_SUBSCRIPTION
  else if (schemas.find? "SinkCredential").isSome || anyKeyContains schemas "SinkCredential" then
    .IMPLICIT_SUBSCRIPTION
  else if anyPathHasCallbacks paths then .IMPLICIT_SUBSCRIPTION
  else if anySchemaSinkProp schemas then .IMPLICIT_SUBSCRIPTION
  else .REGULAR

/-- C3: `_determine_api_type` always returns a classification (it is a total
function by construction) following the fixed priority order: a document
whose title contains "subscription" (case-insensitively) is
`EXPLICIT_SUBSCRIPTION` regardless of its paths or schemas; a document with
a `CloudEvent` schema but no subscription title or `/subscriptions` path is
`IMPLICIT_SUBSCRIPTION`; a document matching none of the six predicates is
`REGULAR`. -/
theorem determine_api_type_priority :
    (∀ spec : Yaml, strContains (apiTitleLower spec) "subscription" = true →
        _determine_api_type spec = .EXPLICIT_SUBSCRIPTION) ∧
    (∀ spec : Yaml,
        strContains (apiTitleLower spec) "subscription" = false →
        hasSubscriptionsPath (apiPaths spec) = false →
        ((apiSchemas spec).find? "CloudEvent").isSome = true →
        _determine_api_type spec = .IMPLICIT_SUBSCRIPTION) ∧
    (∀ spec : Yaml,
        strContains (apiTitleLower spec) "subscription" = false →
        hasSubscriptionsPath (apiPaths spec) = false →
        ((apiSchemas spec).find? "CloudEvent").isSome = false →
        (((apiSchemas spec).find? "SinkCredential").isSome
          || anyKeyContains (apiSchemas spec) "SinkCredential") = false →
        anyPathHasCallbacks (apiPaths spec) = false →
        anySchemaSinkProp (apiSchemas spec) = false →
        _determine_api_type spec = .REGULAR) := by
  refine ⟨?_, ?_, ?_⟩
  · intro spec h1
    simp [_determine_api_type, h1]
  · intro spec h1 h2 h3
    simp [_determine_api_type, h1, h2, h3]
  · intro spec h1 h2 h3 h4 h5 h6
    simp [_determine_api_type, h1, h2, h3, h4, h5, h6]

/-- A concrete API document whose title contains "Subscription". -/
def specTitled : Yaml :=
  .map (.cons "info" (.map (.cons "title" (.str "Device Subscription") .nil)) .nil)

/-- A concrete API document with a `CloudEvent` schema and neither a
subscription title nor a `/subscriptions` path. -/
def specCloudEvent : Yaml :=
  .map (.cons "info" (.map (.cons "title" (.str "Device Location") .nil))
    (.cons "components" (.map (.cons "schemas"
      (.map (.cons "CloudEvent" (.map .nil) .nil)) .nil)) .nil))

/-- A concrete API document matching none of the predicates. -/
def specPlain : Yaml :=
  .map (.cons "info" (.map (.cons "title" (.str "Device Location") .nil)) .nil)

/-- Witness for C3: the three branches of `determine_api_type_priority`
hold at concrete documents. -/
theorem determine_api_type_priority_witness :
    _determine_api_type specTitled = .EXPLICIT_SUBSCRIPTION ∧
    _determine_api_type specCloudEvent = .IMPLICIT_SUBSCRIPTION ∧
    _determine_api_type specPlain = .REGULAR :=
  ⟨determine_api_type_priority.1 specTitled (by decide),
   determine_api_type_priority.2.1 specCloudEvent (by decide) (by decide) (by decide),
   determine_api_type_priority.2.2 specPlain (by decide) (by decide) (by decide)
     (by decide) (by decide) (by decide)⟩

/-! ### Shared-schema comparison (`_schemas_equivalent`, source lines 1209-1223) -/

mutual
/-- Embeds `normalize_schema` inside `_schemas_equivalent`: drops every
`description` key from mappings, recursing into values and sequences. -/
def normalize_schema : Yaml → Yaml
  | .map kvs => .map (normalizeKVs kvs)
  | .list l => .list (normalizeList l)
  | y => y

/-- The dictionary branch of `normalize_schema`. -/
def normalizeKVs : YamlKVs → YamlKVs
  | .nil => .nil
  | .cons k v r =>
    if k = "description" then normalizeKVs r
    else .cons k (normalize_schema v) (normalizeKVs r)

/-- The list branch of `normalize_schema`. -/
def normalizeList : YamlList → YamlList
  | .nil => .nil
  | .cons v r => .cons (normalize_schema v) (normalizeList r)
end

/-- Embeds `_schemas_equivalent`: deep comparison of two schema objects after
normalizing away `description` keys (`normalize_schema(s1) ==
normalize_schema(s2)` in the source). -/
def _schemas_equivalent (schema1 schema2 : Yaml) : Bool :=
  decide (normalize_schema schema1 = normalize_schema schema2)

mutual
/-- Two YAML trees differ only in the values stored under `description`
keys: scalars must coincide, mappings must list the same keys in order
with `description` values unconstrained, sequences are compared
pointwise. -/
inductive DescOnlyDiff : Yaml → Yaml → Prop where
  | nullV : DescOnlyDiff .nullV .nullV
  | boolV (b : Bool) : DescOnlyDiff (.boolV b) (.boolV b)
  | intV (n : Int) : DescOnlyDiff (.intV n) (.intV n)
  | str (s : String) : DescOnlyDiff (.str s) (.str s)
  | map {a b : YamlKVs} : DescOnlyDiffKVs a b → DescOnlyDiff (.map a) (.map b)
  | list {a b : YamlList} : DescOnlyDiffList a b → DescOnlyDiff (.list a) (.list b)

/-- Embeds `DescOnlyDiff` on mapping entries. -/
inductive DescOnlyDiffKVs : YamlKVs → YamlKVs → Prop where
  | nil : DescOnlyDiffKVs .nil .nil
  | consDesc {v1 v2 : Yaml} {r1 r2 : YamlKVs} :
      DescOnlyDiffKVs r1 r2 →
      DescOnlyDiffKVs (.cons "description" v1 r1) (.cons "description" v2 r2)
  | cons {k : String} {v1 v2 : Yaml} {r1 r2 : YamlKVs} :
      k ≠ "description" → DescOnlyDiff v1 v2 → DescOnlyDiffKVs r1 r2 →
      DescOnlyDiffKVs (.cons k v1 r1) (.cons k v2 r2)

/-- Embeds `DescOnlyDiff` on sequence elements. -/
inductive DescOnlyDiffList : YamlList → YamlList → Prop where
  | nil : DescOnlyDiffList .nil .nil
  | cons {v1 v2 : Yaml} {r1 r2 : YamlList} :
      DescOnlyDiff v1 v2 → DescOnlyDiffList r1 r2 →
      DescOnlyDiffList (.cons v1 r1) (.cons v2 r2)
end

mutual
/-- Trees that differ only in `description` values normalize identically. -/
theorem normalize_eq_of_descOnly :
    ∀ {a b : Yaml}, DescOnlyDiff a b → normalize_schema a = normalize_schema b
  | _, _, .nullV => rfl
  | _, _, .boolV _ => rfl
  | _, _, .intV _ => rfl
  | _, _, .str _ => rfl
  | _, _, .map h => by
      rw [normalize_schema, normalize_schema, normalizeKVs_eq_of_descOnly h]
  | _, _, .list h => by
      rw [normalize_schema, normalize_schema, normalizeList_eq_of_descOnly h]

/-- Mapping-entry version of `normalize_eq_of_descOnly`. -/
theorem normalizeKVs_eq_of_descOnly :
    ∀ {a b : YamlKVs}, DescOnlyDiffKVs a b → normalizeKVs a = normalizeKVs b
  | _, _, .nil => rfl
  | _, _, .consDesc h => by
      rw [normalizeKVs, normalizeKVs]
      simp only [if_pos rfl]
      exact normalizeKVs_eq_of_descOnly h
  | _, _, .cons hk hv hr => by
      rw [normalizeKVs, normalizeKVs, if_neg hk, if_neg hk,
        normalize_eq_of_descOnly hv, normalizeKVs_eq_of_descOnly hr]

/-- Sequence version of `normalize_eq_of_descOnly`. -/
theorem normalizeList_eq_of_descOnly :
    ∀ {a b : YamlList}, DescOnlyDiffList a b → normalizeList a = normalizeList b
  | _, _, .nil => rfl
  | _, _, .cons hv hr => by
      rw [normalizeList, normalizeList, normalize_eq_of_descOnly hv,
        normalizeList_eq_of_descOnly hr]
end

/-- C8: `_schemas_equivalent` is reflexive and symmetric, and any two
schemas that differ only in the values of `description` keys (at any
nesting depth, including inside sequences) compare as equivalent. -/
theorem schemas_equivalent_algebra :
    (∀ s : Yaml, _schemas_equivalent s s = true) ∧
    (∀ s1 s2 : Yaml, _schemas_equivalent s1 s2 = _schemas_equivalent s2 s1) ∧
    (∀ s1 s2 : Yaml, DescOnlyDiff s1 s2 → _schemas_equivalent s1 s2 = true) := by
  refine ⟨?_, ?_, ?_⟩
  · intro s
    simp [_schemas_equivalent]
  · intro s1 s2
    simp only [_schemas_equivalent]
    exact decide_eq_decide.mpr eq_comm
  · intro s1 s2 h
    simp [_schemas_equivalent, normalize_eq_of_descOnly h]

/-- A schema with a `description` and a pattern. -/
def xCorrSchemaA : Yaml :=
  .map (.cons "type" (.str "string")
    (.cons "description" (.str "Correlation id")
      (.cons "pattern" (.str "^[a-z]+$") .nil)))

/-- The same schema with a different `description` value. -/
def xCorrSchemaB : Yaml :=
  .map (.cons "type" (.str "string")
    (.cons "description" (.str "Value for the x-correlator header")
      (.cons "pattern" (.str "^[a-z]+$") .nil)))

/-- Witness for C8: the three parts of `schemas_equivalent_algebra` at
concrete schemas, the third at two schemas differing only in their
`description` values. -/
theorem schemas_equivalent_algebra_witness :
    _schemas_equivalent xCorrSchemaA xCorrSchemaA = true ∧
    _schemas_equivalent xCorrSchemaA xCorrSchemaB
      = _schemas_equivalent xCorrSchemaB xCorrSchemaA ∧
    _schemas_equivalent xCorrSchemaA xCorrSchemaB = true :=
  ⟨schemas_equivalent_algebra.1 xCorrSchemaA,
   schemas_equivalent_algebra.2.1 xCorrSchemaA xCorrSchemaB,
   schemas_equivalent_algebra.2.2 xCorrSchemaA xCorrSchemaB
     (.map (.cons (by decide) (.str "string")
       (.consDesc (.cons (by decide) (.str "^[a-z]+$") .nil))))⟩

/-! ### Reserved-word scan (`_load_reserved_words` lines 83-96 and
`_check_reserved_words` lines 993-1027)

Embedded messages keep the wording of the source but drop the ASCII
quote decorations that the Python f-strings place around interpolated
values. -/

/-- Embeds `_load_reserved_words`: the fixed reserved-word set (Python, Java and
common generator keywords). -/
def reserved_words : List String :=
  ["and", "as", "assert", "break", "class", "continue", "def", "del",
   "elif", "else", "except", "exec", "finally", "for", "from", "global",
   "if", "import", "in", "is", "lambda", "not", "or", "pass", "print",
   "raise", "return", "try", "while", "with", "yield",
   "abstract", "boolean", "byte", "catch", "char", "double", "final",
   "float", "int", "interface", "long", "native", "new", "package",
   "private", "protected", "public", "short", "static", "super",
   "synchronized", "this", "throw", "throws", "transient", "void",
   "volatile",
   "default", "switch", "case", "const", "var", "let", "function",
   "null", "undefined"]

/-- Embeds `check_name` inside `_check_reserved_words`: one Medium issue when the
lowercased name is reserved. -/
def check_name (name location : String) : List ValidationIssue :=
  if strLower name ∈ reserved_words then
    [⟨.MEDIUM, "Reserved Words", "Reserved word " ++ name ++ " used",
      location, "Rename " ++ name ++ " to avoid conflicts"⟩]
  else []

/-- Embeds `path.strip('/').split('/')`. -/
def pathSegments (path : String) : List String :=
  strSplitChar ('/' : Char) (stripChar ('/' : Char) path)

/-- The loop `for part in path_parts`, skipping path parameters
(segments that start with a brace). -/
def checkPathParts (path : String) : List String → List ValidationIssue
  | [] => []
  | part :: rest =>
    (if strStarts part "\x7b" then [] else check_name part ("paths." ++ path))
      ++ checkPathParts path rest

/-- The loop `for path in paths.keys()` of the reserved-word scan. -/
def checkPathsReserved : YamlKVs → List ValidationIssue
  | .nil => []
  | .cons path _ r => checkPathParts path (pathSegments path) ++ checkPathsReserved r

/-- One operation of the `operationId` scan: `operation.get('operationId')`
is checked when it is a truthy (non-empty) string. -/
def checkOpId (path method : String) (operation : Yaml) : List ValidationIssue :=
  match operation with
  | .map kvs =>
    match kvs.find? "operationId" with
    | some (.str s) =>
        if s = "" then []
        else check_name s ("paths." ++ path ++ "." ++ method ++ ".operationId")
    | _ => []
  | _ => []

/-- The loop `for method, operation in path_obj.items()` of the
`operationId` scan. -/
def checkOpsReserved (path : String) : YamlKVs → List ValidationIssue
  | .nil => []
  | .cons method op r => checkOpId path method op ++ checkOpsReserved path r

/-- The loop `for path, path_obj in paths.items()` of the `operationId`
scan. -/
def checkPathsOps : YamlKVs → List ValidationIssue
  | .nil => []
  | .cons path pobj r => checkOpsReserved path pobj.mapD ++ checkPathsOps r

/-- The loop `for name in component_group.keys()` of the component-name
scan. -/
def checkComponentNames (ctype : String) : List String → List ValidationIssue
  | [] => []
  | name :: rest =>
    check_name name ("components." ++ ctype ++ "." ++ name)
      ++ checkComponentNames ctype rest

/-- The loop `for component_type in ['schemas', 'responses', 'parameters',
'requestBodies']` of the component-name scan. -/
def checkComponentsReserved (components : Yaml) : List ValidationIssue :=
  checkComponentNames "schemas" ((components.getD "schemas" (.map .nil)).mapD.keys)
    ++ checkComponentNames "responses" ((components.getD "responses" (.map .nil)).mapD.keys)
    ++ checkComponentNames "parameters" ((components.getD "parameters" (.map .nil)).mapD.keys)
    ++ checkComponentNames "requestBodies" ((components.getD "requestBodies" (.map .nil)).mapD.keys)

/-- Embeds `_check_reserved_words` (source lines 993-1027). -/
def _check_reserved_words (spec : Yaml) : List ValidationIssue :=
  let paths := apiPaths spec
  let components := spec.getD "components" (.map .nil)
  checkPathsReserved paths ++ checkPathsOps paths ++ checkComponentsReserved components

/-- C10: the reserved-word scan flags a name exactly when its lowercased
form lies in the fixed reserved-word set; path segments that open with a
brace (path parameters) are exempt while all other segments are checked;
non-empty operation identifiers and component names are always checked
with no exemption. -/
theorem reserved_words_scan :
    (∀ name location : String,
        check_name name location ≠ [] ↔ strLower name ∈ reserved_words) ∧
    (∀ path : String, ∀ segs : List String,
        checkPathParts path segs
          = (segs.filter (fun p => !(strStarts p "\x7b"))).flatMap
              (fun p => check_name p ("paths." ++ path))) ∧
    (∀ path method : String, ∀ kvs : YamlKVs, ∀ s : String,
        kvs.find? "operationId" = some (.str s) → s ≠ "" →
        checkOpId path method (.map kvs)
          = check_name s ("paths." ++ path ++ "." ++ method ++ ".operationId")) ∧
    (∀ ctype : String, ∀ names : List String,
        checkComponentNames ctype names
          = names.flatMap (fun n => check_name n ("components." ++ ctype ++ "." ++ n))) := by
  refine ⟨?_, ?_, ?_, ?_⟩
  · intro name location
    by_cases h : strLower name ∈ reserved_words
    · simp [check_name, h]
    · simp [check_name, h]
  · intro path segs
    induction segs with
    | nil => rfl
    | cons p rest ih =>
        by_cases h : strStarts p "\x7b"
        · simp [checkPathParts, List.filter_cons, h, ih]
        · simp [checkPathParts, List.filter_cons, h, ih]
  · intro path method kvs s hfind hs
    simp [checkOpId, hfind, hs]
  · intro ctype names
    induction names with
    | nil => rfl
    | cons n rest ih => simp [checkComponentNames, ih]

/-- Witness for C10: the scan parts of `reserved_words_scan` evaluated at
concrete names, a concrete path with a parameter segment, a concrete
operation and concrete component names. -/
theorem reserved_words_scan_witness :
    (check_name "Class" "paths./class" ≠ [] ↔ strLower "Class" ∈ reserved_words) ∧
    checkPathParts "/sessions/\x7bclass\x7d" ["sessions", "\x7bclass\x7d"]
      = (["sessions", "\x7bclass\x7d"].filter (fun p => !(strStarts p "\x7b"))).flatMap
          (fun p => check_name p ("paths." ++ "/sessions/\x7bclass\x7d")) ∧
    checkOpId "/sessions" "get" (.map (.cons "operationId" (.str "import") .nil))
      = check_name "import" ("paths." ++ "/sessions" ++ "." ++ "get" ++ ".operationId") ∧
    checkComponentNames "schemas" ["Device", "switch"]
      = ["Device", "switch"].flatMap
          (fun n => check_name n ("components." ++ "schemas" ++ "." ++ n)) :=
  ⟨reserved_words_scan.1 "Class" "paths./class",
   reserved_words_scan.2.1 "/sessions/\x7bclass\x7d" ["sessions", "\x7bclass\x7d"],
   reserved_words_scan.2.2.1 "/sessions" "get"
     (.cons "operationId" (.str "import") .nil) "import" (by decide) (by decide),
   reserved_words_scan.2.2.2 "schemas" ["Device", "switch"]⟩

/-! ### Servers object check (`_check_servers_object`, source lines 774-826)

The regular expression `^(\d+)\.(\d+)\.(\d+)-rc\.(\d+)$` is embedded as a
deterministic parser: each `\d+` is a maximal run of digits (the character
classes exclude the following literal, so the greedy match never needs to
backtrack). -/

/-- One `\d+` group: a non-empty maximal digit run and the remainder. -/
def parseNum (l : List Char) : Option (List Char × List Char) :=
  if (l.takeWhile Char.isDigit).isEmpty then none
  else some (l.takeWhile Char.isDigit, l.dropWhile Char.isDigit)

/-- Embeds `re.match(r'^(\d+)\.(\d+)\.(\d+)-rc\.(\d+)$', ...)` on a character
list, returning the four captured groups. -/
def parseRcChars (l : List Char) : Option (List Char × List Char × List Char × List Char) :=
  match parseNum l with
  | none => none
  | some (d1, r1) =>
    match r1 with
    | '.' :: r1b =>
      match parseNum r1b with
      | none => none
      | some (d2, r2) =>
        match r2 with
        | '.' :: r2b =>
          match parseNum r2b with
          | none => none
          | some (d3, r3) =>
            match r3 with
            | '-' :: 'r' :: 'c' :: '.' :: r3b =>
              match parseNum r3b with
              | none => none
              | some (d4, r4) =>
                match r4 with
                | [] => some (d1, d2, d3, d4)
                | _ => none
            | _ => none
        | _ => none
    | _ => none

/-- The version regex on strings: the groups `(major, minor, patch, rc)`. -/
def parseRcVersion (s : String) : Option (String × String × String × String) :=
  match parseRcChars s.data with
  | some (d1, d2, d3, d4) => some (⟨d1⟩, ⟨d2⟩, ⟨d3⟩, ⟨d4⟩)
  | none => none

/-- A successful `\d+` group splits its input. -/
theorem parseNum_decomp {l d r : List Char} (h : parseNum l = some (d, r)) :
    l = d ++ r ∧ d ≠ [] := by
  unfold parseNum at h
  split at h
  · simp at h
  next hne =>
    rw [Option.some.injEq, Prod.mk.injEq] at h
    obtain ⟨hd1, hr1⟩ := h
    subst hd1
    subst hr1
    refine ⟨(List.takeWhile_append_dropWhile Char.isDigit l).symm, ?_⟩
    simpa [List.isEmpty_iff] using hne

/-- A successful full match splits the input around the `-rc.` literal. -/
theorem parseRcChars_decomp {l d1 d2 d3 d4 : List Char}
    (h : parseRcChars l = some (d1, d2, d3, d4)) :
    l = d1 ++ '.' :: (d2 ++ '.' :: (d3 ++ '-' :: 'r' :: 'c' :: '.' :: d4)) := by
  unfold parseRcChars at h
  split at h
  · exact absurd h (by simp)
  next dd1 r1 hp1 =>
    split at h
    case _ r1b =>
      split at h
      · exact absurd h (by simp)
      next dd2 r2 hp2 =>
        split at h
        case _ r2b =>
          split at h
          · exact absurd h (by simp)
          next dd3 r3 hp3 =>
            split at h
            case _ r3b =>
              split at h
              · exact absurd h (by simp)
              next dd4 r4 hp4 =>
                split at h
                · obtain ⟨e1, e2, e3, e4⟩ := by simpa using h
                  subst e1; subst e2; subst e3; subst e4
                  obtain ⟨hl1, -⟩ := parseNum_decomp hp1
                  obtain ⟨hl2, -⟩ := parseNum_decomp hp2
                  obtain ⟨hl3, -⟩ := parseNum_decomp hp3
                  obtain ⟨hl4, -⟩ := parseNum_decomp hp4
                  subst hl1
                  simp_all
                · exact absurd h (by simp)
            · exact absurd h (by simp)
        · exact absurd h (by simp)
    · exact absurd h (by simp)

/-- A version string matching the release-candidate regex contains the
literal `-rc.` and is not the work-in-progress marker, so it passes the
guard `'-rc.' in version and version != 'wip'`. -/
theorem rc_gate_of_parse {s : String} {ma mi pa rcn : String}
    (h : parseRcVersion s = some (ma, mi, pa, rcn)) :
    strContains s "-rc." = true ∧ (s ≠ "wip") := by
  constructor
  · unfold parseRcVersion at h
    cases hc : parseRcChars s.data with
    | none => rw [hc] at h; exact absurd h (by simp)
    | some q =>
        obtain ⟨d1, d2, d3, d4⟩ := q
        have hd := parseRcChars_decomp hc
        rw [strContains]
        have hshape : s.data = (d1 ++ '.' :: (d2 ++ '.' :: d3)) ++ ("-rc.".data ++ d4) := by
          rw [hd]
          simp
        rw [hshape, ← List.append_assoc]
        exact listContains_of_append _ _ _
  · intro hwip
    rw [hwip] at h
    have hnone : parseRcVersion "wip" = none := by decide
    rw [hnone] at h
    exact Option.noConfusion h

/-- Embeds `spec.get('info', {}).get('version', '')`. -/
def apiVersion (spec : Yaml) : String :=
  ((spec.getD "info" (.map .nil)).getD "version" (.str "")).strD ""

/-- Embeds `spec.get('servers', [])`. -/
def serversOf (spec : Yaml) : YamlList :=
  (spec.getD "servers" (.list .nil)).listD

/-- The expected release-candidate URL fragment
(`v<major>.<minor>rc<rc_num>` when the major group is `0`, else
`v<major>rc<rc_num>`). -/
def rcExpectedPattern (ma mi rcn : String) : String :=
  if ma = "0" then "v" ++ ma ++ "." ++ mi ++ "rc" ++ rcn
  else "v" ++ ma ++ "rc" ++ rcn

/-- The work-in-progress branch of `_check_servers_object`
(`if version == 'wip' and 'vwip' not in url`). -/
def serversWipIssues (version url : String) : List ValidationIssue :=
  if version == "wip" && !(strContains url "vwip") then
    [⟨.MEDIUM, "Servers Object",
      "WIP version should use vwip in URL or be updated to proper version",
      "servers[0].url", ""⟩]
  else []

/-- The release-candidate branch of `_check_servers_object`
(`if '-rc.' in version and version != 'wip'` followed by the regex match
and the URL-fragment test). -/
def serversRcIssues (version url : String) : List ValidationIssue :=
  if strContains version "-rc." && version != "wip" then
    match parseRcVersion version with
    | some (ma, mi, _pa, rcn) =>
      if !(strContains url (rcExpectedPattern ma mi rcn)) then
        [⟨.CRITICAL, "Servers Object",
          "Incorrect URL version format. Expected pattern: "
            ++ rcExpectedPattern ma mi rcn,
          "servers[0].url", ""⟩]
      else []
    | none => []
  else []

/-- The `apiRoot` default branch of `_check_servers_object`. -/
def serversRootIssues (server : Yaml) : List ValidationIssue :=
  if ((server.getD "variables" (.map .nil)).getD "apiRoot" (.map .nil)).getD
      "default" .nullV ≠ .str "http://localhost:9091" then
    [⟨.MEDIUM, "Servers Object",
      "apiRoot default should be http://localhost:9091",
      "servers[0].variables.apiRoot.default", ""⟩]
  else []

/-- The body of `_check_servers_object` after `servers` was read. -/
def checkServersAux (spec : Yaml) : YamlList → List ValidationIssue
  | .nil =>
    [⟨.CRITICAL, "Servers Object", "Missing servers object", "servers", ""⟩]
  | .cons server _ =>
    serversWipIssues (apiVersion spec) ((server.getD "url" (.str "")).strD "")
      ++ serversRcIssues (apiVersion spec) ((server.getD "url" (.str "")).strD "")
      ++ serversRootIssues server

/-- Embeds `_check_servers_object` (source lines 774-826): missing-servers check,
work-in-progress URL check, release-candidate URL-fragment check and the
`apiRoot` default check. -/
def _check_servers_object (spec : Yaml) : List ValidationIssue :=
  checkServersAux spec (serversOf spec)

/-- Embeds `[i for i in issues if i.severity == Severity.CRITICAL]`: the Critical
findings of an issue list, as computed by the reporting layer. -/
def criticalIssues : List ValidationIssue → List ValidationIssue
  | [] => []
  | i :: t => if i.severity = .CRITICAL then i :: criticalIssues t else criticalIssues t

/-- Concatenation distributes under `criticalIssues`. -/
theorem criticalIssues_append (a b : List ValidationIssue) :
    criticalIssues (a ++ b) = criticalIssues a ++ criticalIssues b := by
  induction a with
  | nil => rfl
  | cons i t ih =>
      by_cases h : i.severity = .CRITICAL
      · simp [criticalIssues, h, ih]
      · simp [criticalIssues, h, ih]

/-- The `apiRoot` branch only produces Medium findings. -/
theorem criticalIssues_rootIssues (server : Yaml) :
    criticalIssues (serversRootIssues server) = [] := by
  rw [serversRootIssues]
  split
  · simp [criticalIssues]
  · rfl

/-- C7: for a document whose `info.version` matches the release-candidate
form `X.Y.Z-rc.N`, the servers check derives the fragment
`v0.<minor>rc<N>` when the major group is `0` and `v<major>rc<N>`
otherwise, and its Critical findings are exactly one finding citing the
expected fragment when the first server URL lacks the fragment, and none
when the URL contains it. -/
theorem servers_rc_url_check (spec server : Yaml) (rest : YamlList)
    (ma mi pa rcn : String)
    (hserv : serversOf spec = .cons server rest)
    (hver : parseRcVersion (apiVersion spec) = some (ma, mi, pa, rcn)) :
    criticalIssues (_check_servers_object spec)
      = (if strContains ((server.getD "url" (.str "")).strD "")
              (rcExpectedPattern ma mi rcn) then []
         else [⟨.CRITICAL, "Servers Object",
            "Incorrect URL version format. Expected pattern: "
              ++ rcExpectedPattern ma mi rcn,
            "servers[0].url", ""⟩]) := by
  obtain ⟨hgate1, hgate2⟩ := rc_gate_of_parse hver
  have hgate2b : (apiVersion spec != "wip") = true := by
    simpa using hgate2
  have hwipeq : (apiVersion spec == "wip") = false := by
    simpa using hgate2
  rw [_check_servers_object, hserv, checkServersAux]
  rw [serversWipIssues, hwipeq]
  rw [serversRcIssues, hgate1, hgate2b, hver]
  simp only [Bool.false_and, Bool.true_and, Bool.and_self]
  rw [if_neg Bool.false_ne_true, List.nil_append, if_pos trivial]
  rw [criticalIssues_append, criticalIssues_rootIssues, List.append_nil]
  by_cases hurl : strContains ((server.getD "url" (.str "")).strD "")
      (rcExpectedPattern ma mi rcn)
  · rw [if_pos hurl]
    rw [if_neg (by simp [hurl])]
    rfl
  · rw [Bool.not_eq_true] at hurl
    have hpos : (!(strContains ((server.getD "url" (.str "")).strD "")
        (rcExpectedPattern ma mi rcn))) = true := by simp [hurl]
    rw [if_pos hpos]
    rw [if_neg (by simp [hurl])]
    simp [criticalIssues]

/-- A concrete release-candidate document whose first server URL lacks the
derived fragment `v0.3rc2`. -/
def specRcBadUrl : Yaml :=
  .map (.cons "info" (.map (.cons "version" (.str "0.3.0-rc.2") .nil))
    (.cons "servers" (.list (.cons
      (.map (.cons "url" (.str "\x7bapiRoot\x7d/device-location/v0.3") .nil))
      .nil)) .nil))

/-- Witness for C7: on `specRcBadUrl` the theorem yields exactly one
Critical finding citing the expected fragment. -/
theorem servers_rc_url_check_witness :
    criticalIssues (_check_servers_object specRcBadUrl)
      = [⟨.CRITICAL, "Servers Object",
          "Incorrect URL version format. Expected pattern: "
            ++ rcExpectedPattern "0" "3" "2",
          "servers[0].url", ""⟩] := by
  have h := servers_rc_url_check specRcBadUrl
    (.map (.cons "url" (.str "\x7bapiRoot\x7d/device-location/v0.3") .nil)) .nil
    "0" "3" "0" "2" (by decide) (by decide)
  rw [h]
  decide

/-! ### Scope naming check (`_check_scope_naming_patterns` lines 513-541 and
`_validate_scope_pattern` lines 543-598)

The regular expressions are embedded as deterministic matchers: every
character class excludes the literal that follows it, so greedy matching
never backtracks. Embedded messages again drop the quote decorations (and
contraction apostrophes) of the Python f-strings. -/

/-- The class `[a-z0-9-]`. -/
def isLowerDigitDash (c : Char) : Bool :=
  (('a' : Char) ≤ c && c ≤ ('z' : Char))
    || (('0' : Char) ≤ c && c ≤ ('9' : Char))
    || c == ('-' : Char)

/-- The class `[\d\w\.]` (ASCII word characters and the dot). -/
def isWordDot (c : Char) : Bool :=
  c.isAlphanum || c == ('_' : Char) || c == ('.' : Char)

/-- Try `/([a-z0-9-]+)/v[\d\w\.]+` anchored at the current position,
returning the captured api-name group. -/
def matchApiNameAt (l : List Char) : Option String :=
  match l with
  | '/' :: rest =>
    if (rest.takeWhile isLowerDigitDash).isEmpty then none
    else
      match rest.dropWhile isLowerDigitDash with
      | '/' :: 'v' :: r2 =>
        if (r2.takeWhile isWordDot).isEmpty then none
        else some ⟨rest.takeWhile isLowerDigitDash⟩
      | _ => none
  | _ => none

/-- Embeds `re.search(r'/([a-z0-9-]+)/v[\d\w\.]+', ...)`: scan every start
position left to right. -/
def searchApiNameChars : List Char → Option String
  | [] => none
  | a :: t =>
    match matchApiNameAt (a :: t) with
    | some n => some n
    | none => searchApiNameChars t

/-- The api-name extraction from a server URL. -/
def searchApiName (s : String) : Option String :=
  searchApiNameChars s.data

/-- Drop a literal character-list prefix, or fail. -/
def dropPre : List Char → List Char → Option (List Char)
  | [], l => some l
  | _ :: _, [] => none
  | a :: as, b :: bs => if a == b then dropPre as bs else none

/-- Embeds `re.match(rf'^{api_name}:org\.camaraproject\.[a-z0-9-]+\.v\d+\.
[a-z0-9-]+:(create|read|write|delete)$', scope)` as a Boolean matcher. -/
def matchEventScope (api_name scope : String) : Bool :=
  match dropPre (api_name ++ ":org.camaraproject.").data scope.data with
  | none => false
  | some r0 =>
    if (r0.takeWhile isLowerDigitDash).isEmpty then false
    else
      match r0.dropWhile isLowerDigitDash with
      | '.' :: 'v' :: r1 =>
        if (r1.takeWhile Char.isDigit).isEmpty then false
        else
          match r1.dropWhile Char.isDigit with
          | '.' :: r2 =>
            if (r2.takeWhile isLowerDigitDash).isEmpty then false
            else
              match r2.dropWhile isLowerDigitDash with
              | ':' :: r3 =>
                r3 == "create".data || r3 == "read".data
                  || r3 == "write".data || r3 == "delete".data
              | _ => false
          | _ => false
      | _ => false

/-- Embeds `_validate_scope_pattern` (source lines 543-598). -/
def _validate_scope_pattern (scope api_name : String) (api_type : APIType) :
    List ValidationIssue :=
  if api_type = .EXPLICIT_SUBSCRIPTION then
    if strStarts scope (api_name ++ ":org.camaraproject.") then
      if !(matchEventScope api_name scope) then
        [⟨.MEDIUM, "Scope Naming",
          "Event-specific scope does not follow pattern: " ++ scope,
          "Expected: " ++ api_name
            ++ ":org.camaraproject.<api-name>.v<version>.<event-name>:<action>",
          "Use correct event-specific scope pattern"⟩]
      else []
    else if strContains scope ":" then
      match strSplitChar (':' : Char) scope with
      | [p0, p1] =>
        if p0 ≠ api_name then
          [⟨.MEDIUM, "Scope Naming",
            "Scope API name mismatch: expected " ++ api_name ++ ", got " ++ p0,
            "Use: " ++ api_name ++ ":" ++ p1, ""⟩]
        else []
      | _ =>
        [⟨.MEDIUM, "Scope Naming",
          "Explicit subscription scope should have 2 parts: " ++ scope,
          "Expected: " ++ api_name ++ ":<action>", ""⟩]
    else []
  else
    match strSplitChar (':' : Char) scope with
    | [p0, p1] =>
      if p0 ≠ api_name then
        [⟨.MEDIUM, "Scope Naming",
          "Scope API name mismatch: expected " ++ api_name ++ ", got " ++ p0,
          "Use: " ++ api_name ++ ":" ++ p1, ""⟩]
      else []
    | [p0, p1, p2] =>
      if p0 ≠ api_name then
        [⟨.MEDIUM, "Scope Naming",
          "Scope API name mismatch: expected " ++ api_name ++ ", got " ++ p0,
          "Use: " ++ api_name ++ ":" ++ p1 ++ ":" ++ p2, ""⟩]
      else []
    | _ =>
      [⟨.MEDIUM, "Scope Naming",
        "Scope does not follow CAMARA pattern: " ++ scope,
        "Expected: " ++ api_name ++ ":<action> or " ++ api_name
          ++ ":<resource>:<action>", ""⟩]

/-- The loop `for scope in scopes`. -/
def scopesIssues (api_name : String) (api_type : APIType) :
    YamlList → List ValidationIssue
  | .nil => []
  | .cons scopeY r =>
    _validate_scope_pattern (scopeY.strD "") api_name api_type
      ++ scopesIssues api_name api_type r

/-- The loop `for scheme_name, scopes in sec_req.items()` with the
`scheme_name == 'openId'` guard. -/
def secReqIssues (api_name : String) (api_type : APIType) :
    YamlKVs → List ValidationIssue
  | .nil => []
  | .cons scheme scopes r =>
    (if scheme = "openId" then scopesIssues api_name api_type scopes.listD else [])
      ++ secReqIssues api_name api_type r

/-- The loop `for sec_req in security`. -/
def securityIssues (api_name : String) (api_type : APIType) :
    YamlList → List ValidationIssue
  | .nil => []
  | .cons sec r =>
    secReqIssues api_name api_type sec.mapD ++ securityIssues api_name api_type r

/-- One method of a path object: only the five HTTP verbs are inspected. -/
def opScopeIssues (api_name : String) (api_type : APIType)
    (method : String) (operation : Yaml) : List ValidationIssue :=
  if method ∈ ["get", "post", "put", "delete", "patch"] then
    securityIssues api_name api_type ((operation.getD "security" (.list .nil)).listD)
  else []

/-- The loop `for method, operation in path_obj.items()`. -/
def pathObjScopeIssues (api_name : String) (api_type : APIType) :
    YamlKVs → List ValidationIssue
  | .nil => []
  | .cons method op r =>
    opScopeIssues api_name api_type method op
      ++ pathObjScopeIssues api_name api_type r

/-- The loop `for path, path_obj in paths.items()`. -/
def pathsScopeIssues (api_name : String) (api_type : APIType) :
    YamlKVs → List ValidationIssue
  | .nil => []
  | .cons _ pobj r =>
    pathObjScopeIssues api_name api_type pobj.mapD
      ++ pathsScopeIssues api_name api_type r

/-- Embeds `_check_scope_naming_patterns` (source lines 513-541): early return when
`servers` is missing or the api-name cannot be extracted from the first
server URL, otherwise scope validation over every operation. -/
def _check_scope_naming_patterns (spec : Yaml) (api_type : APIType) :
    List ValidationIssue :=
  match serversOf spec with
  | .nil => []
  | .cons server _ =>
    match searchApiName ((server.getD "url" (.str "")).strD "") with
    | none => []
    | some api_name => pathsScopeIssues api_name api_type (apiPaths spec)

/-- C9: a document with no servers entry, or whose first server URL has no
segment matching `/([a-z0-9-]+)/v[\d\w\.]+`, produces no scope-naming
findings at all — its OAuth scopes are never validated. -/
theorem scope_check_requires_server_api_name :
    (∀ (spec : Yaml) (t : APIType), serversOf spec = .nil →
        _check_scope_naming_patterns spec t = []) ∧
    (∀ (spec server : Yaml) (rest : YamlList) (t : APIType),
        serversOf spec = .cons server rest →
        searchApiName ((server.getD "url" (.str "")).strD "") = none →
        _check_scope_naming_patterns spec t = []) := by
  constructor
  · intro spec t h
    rw [_check_scope_naming_patterns, h]
  · intro spec server rest t hs hn
    simp [_check_scope_naming_patterns, hs, hn]

/-- A document whose only server URL has no extractable api-name but whose
operations carry malformed scopes. -/
def specNoApiName : Yaml :=
  .map (.cons "servers"
    (.list (.cons (.map (.cons "url" (.str "https://example.com") .nil)) .nil))
    (.cons "paths" (.map (.cons "/sessions" (.map (.cons "get"
      (.map (.cons "security" (.list (.cons (.map (.cons "openId"
        (.list (.cons (.str "not a scope at all::::") .nil)) .nil)) .nil)) .nil))
      .nil)) .nil)) .nil))

/-- Witness for C9: both parts of `scope_check_requires_server_api_name`
hold at concrete documents. -/
theorem scope_check_requires_server_api_name_witness :
    _check_scope_naming_patterns (.map .nil) .REGULAR = [] ∧
    _check_scope_naming_patterns specNoApiName .REGULAR = [] :=
  ⟨scope_check_requires_server_api_name.1 (.map .nil) .REGULAR (by decide),
   scope_check_requires_server_api_name.2 specNoApiName
     (.map (.cons "url" (.str "https://example.com") .nil)) .nil .REGULAR
     (by decide) (by decide)⟩

/-! ### Project consistency (`validate_project_consistency` lines 1135-1178,
`_validate_shared_schema` lines 1180-1207, `_validate_license_consistency`
lines 1225-1250, `_validate_commonalities_consistency` lines 1252-1277)

File loading is embedded through an association list `fs` of the files
that open and parse successfully; a path absent from `fs` models the
`except Exception` branch (its issue message keeps the path and drops the
runtime exception text). -/

/-- Embeds `ConsistencyResult` (dataclass in the source). -/
structure ConsistencyResult where
  issues : List ValidationIssue := []
  checks_performed : List String := []
deriving DecidableEq, Repr

/-- Embeds `Path(p).name`: the component after the last slash. -/
def pathBaseName (s : String) : String :=
  (strSplitChar ('/' : Char) s).getLastD s

/-- Association-list lookup for the parseable-files environment. -/
def listFind? : List (String × Yaml) → String → Option Yaml
  | [], _ => none
  | (k, v) :: r, key => if k = key then some v else listFind? r key

/-- The loading loop of `validate_project_consistency`: issues from files
that fail to load, and the loaded specs keyed by path, both in file
order. -/
def loadSpecs (fs : List (String × Yaml)) :
    List String → List ValidationIssue × List (String × Yaml)
  | [] => ([], [])
  | f :: rest =>
    match listFind? fs f with
    | some y =>
      let p := loadSpecs fs rest
      (p.1, (f, y) :: p.2)
    | none =>
      let p := loadSpecs fs rest
      (⟨.CRITICAL, "File Loading", "Failed to load " ++ f, f, ""⟩ :: p.1, p.2)

/-- The collection loop of `_validate_shared_schema`: the files defining
`schema_name`, with their definitions, in file order. -/
def collectSchemas (schema_name : String) :
    List (String × Yaml) → List (String × Yaml)
  | [] => []
  | (f, spec) :: r =>
    match (apiSchemas spec).find? schema_name with
    | some y => (f, y) :: collectSchemas schema_name r
    | none => collectSchemas schema_name r

/-- The comparison loop of `_validate_shared_schema`: every definition is
compared with the reference (the first file found), skipping the
reference itself. -/
def compareWithReference (schema_name ref_file : String) (ref : Yaml) :
    List (String × Yaml) → List ValidationIssue
  | [] => []
  | (f, y) :: r =>
    (if f = ref_file then []
     else if !(_schemas_equivalent ref y) then
       [⟨.CRITICAL, "Shared Schema Consistency",
         "Schema " ++ schema_name ++ " differs between files",
         pathBaseName ref_file ++ " vs " ++ pathBaseName f,
         "Ensure " ++ schema_name ++ " schema is identical in all files"⟩]
     else [])
      ++ compareWithReference schema_name ref_file ref r

/-- The body of `_validate_shared_schema` once the definitions are
collected: fewer than two definitions produce nothing. -/
def sharedSchemaFrom (schema_name : String) :
    List (String × Yaml) → List ValidationIssue
  | [] => []
  | [_] => []
  | (ref_file, ref) :: h2 :: t2 =>
    compareWithReference schema_name ref_file ref ((ref_file, ref) :: h2 :: t2)

/-- Embeds `_validate_shared_schema` (source lines 1180-1207). -/
def _validate_shared_schema (schema_name : String)
    (specs : List (String × Yaml)) : List ValidationIssue :=
  sharedSchemaFrom schema_name (collectSchemas schema_name specs)

/-- The license collection loop (`if license_info:` keeps truthy values). -/
def collectLicenses : List (String × Yaml) → List (String × Yaml)
  | [] => []
  | (f, spec) :: r =>
    let li := (spec.getD "info" (.map .nil)).getD "license" (.map .nil)
    (if li.truthy then [(f, li)] else []) ++ collectLicenses r

/-- The license comparison loop: any difference is one Medium issue. -/
def compareLicenses (ref_file : String) (ref : Yaml) :
    List (String × Yaml) → List ValidationIssue
  | [] => []
  | (f, li) :: r =>
    (if f = ref_file then []
     else if li ≠ ref then
       [⟨.MEDIUM, "License Consistency",
         "License information differs between files",
         pathBaseName ref_file ++ " vs " ++ pathBaseName f,
         "Ensure all files have identical license information"⟩]
     else [])
      ++ compareLicenses ref_file ref r

/-- The body of `_validate_license_consistency` once licenses are
collected. -/
def licenseFrom : List (String × Yaml) → List ValidationIssue
  | [] => []
  | [_] => []
  | (rf, rl) :: h2 :: t2 => compareLicenses rf rl ((rf, rl) :: h2 :: t2)

/-- Embeds `_validate_license_consistency` (source lines 1225-1250). -/
def _validate_license_consistency (specs : List (String × Yaml)) :
    List ValidationIssue :=
  licenseFrom (collectLicenses specs)

/-- Python `str()` on the scalar values that carry a commonalities
version (mappings and sequences do not occur as version stamps). -/
def pyStr : Yaml → String
  | .str s => s
  | .intV n => toString n
  | .boolV true => "True"
  | .boolV false => "False"
  | .nullV => "None"
  | .map _ => "<dict>"
  | .list _ => "<list>"

/-- The commonalities-version collection loop (`if version:` keeps truthy
values, stringified). -/
def collectVersions : List (String × Yaml) → List (String × String)
  | [] => []
  | (f, spec) :: r =>
    let v := (spec.getD "info" (.map .nil)).getD "x-camara-commonalities" .nullV
    (if v.truthy then [(f, pyStr v)] else []) ++ collectVersions r

/-- The commonalities comparison loop: any difference is one Medium
issue. -/
def compareVersions (ref_file ref_version : String) :
    List (String × String) → List ValidationIssue
  | [] => []
  | (f, v) :: r =>
    (if f = ref_file then []
     else if v ≠ ref_version then
       [⟨.MEDIUM, "Commonalities Consistency",
         "Commonalities version differs: " ++ ref_version ++ " vs " ++ v,
         pathBaseName ref_file ++ " vs " ++ pathBaseName f,
         "Ensure all files use the same commonalities version"⟩]
     else [])
      ++ compareVersions ref_file ref_version r

/-- The body of `_validate_commonalities_consistency` once versions are
collected. -/
def versionsFrom : List (String × String) → List ValidationIssue
  | [] => []
  | [_] => []
  | (rf, rv) :: h2 :: t2 => compareVersions rf rv ((rf, rv) :: h2 :: t2)

/-- Embeds `_validate_commonalities_consistency` (source lines 1252-1277). -/
def _validate_commonalities_consistency (specs : List (String × Yaml)) :
    List ValidationIssue :=
  versionsFrom (collectVersions specs)

/-- The fixed list of shared schema names compared across files. -/
def common_schema_names : List String :=
  ["XCorrelator", "ErrorInfo", "Device", "DeviceResponse",
   "PhoneNumber", "NetworkAccessIdentifier", "DeviceIpv4Addr",
   "DeviceIpv6Address", "SingleIpv4Addr", "Port", "Point",
   "Latitude", "Longitude", "Area", "AreaType", "Circle"]

/-- The loop `for schema_name in common_schema_names`. -/
def sharedSchemaIssuesAll (specs : List (String × Yaml)) :
    List String → List ValidationIssue
  | [] => []
  | n :: rest => _validate_shared_schema n specs ++ sharedSchemaIssuesAll specs rest

/-- Embeds `validate_project_consistency` (source lines 1135-1178). -/
def validate_project_consistency (api_files : List String)
    (fs : List (String × Yaml)) : ConsistencyResult :=
  if api_files.length < 2 then
    { checks_performed := ["Project-wide shared schema validation"] }
  else
    let p := loadSpecs fs api_files
    if p.2.length < 2 then
      { issues := p.1,
        checks_performed := ["Project-wide shared schema validation"] }
    else
      { issues := p.1 ++ sharedSchemaIssuesAll p.2 common_schema_names
          ++ _validate_license_consistency p.2
          ++ _validate_commonalities_consistency p.2,
        checks_performed := ["Project-wide shared schema validation"] }

/-- The license comparison only produces Medium findings. -/
theorem criticalIssues_compareLicenses (rf : String) (rl : Yaml)
    (l : List (String × Yaml)) : criticalIssues (compareLicenses rf rl l) = [] := by
  induction l with
  | nil => rfl
  | cons h t ih =>
      obtain ⟨f, li⟩ := h
      rw [compareLicenses, criticalIssues_append, ih, List.append_nil]
      split
      · rfl
      · split
        · simp [criticalIssues]
        · rfl

/-- The license consistency check only produces Medium findings. -/
theorem criticalIssues_license (specs : List (String × Yaml)) :
    criticalIssues (_validate_license_consistency specs) = [] := by
  rw [_validate_license_consistency]
  cases collectLicenses specs with
  | nil => rfl
  | cons h t =>
      cases t with
      | nil => rfl
      | cons h2 t2 =>
          obtain ⟨rf, rl⟩ := h
          rw [licenseFrom]
          exact criticalIssues_compareLicenses rf rl _

/-- The commonalities comparison only produces Medium findings. -/
theorem criticalIssues_compareVersions (rf rv : String)
    (l : List (String × String)) : criticalIssues (compareVersions rf rv l) = [] := by
  induction l with
  | nil => rfl
  | cons h t ih =>
      obtain ⟨f, v⟩ := h
      rw [compareVersions, criticalIssues_append, ih, List.append_nil]
      split
      · rfl
      · split
        · simp [criticalIssues]
        · rfl

/-- The commonalities consistency check only produces Medium findings. -/
theorem criticalIssues_commonalities (specs : List (String × Yaml)) :
    criticalIssues (_validate_commonalities_consistency specs) = [] := by
  rw [_validate_commonalities_consistency]
  cases collectVersions specs with
  | nil => rfl
  | cons h t =>
      cases t with
      | nil => rfl
      | cons h2 t2 =>
          obtain ⟨rf, rv⟩ := h
          rw [versionsFrom]
          exact criticalIssues_compareVersions rf rv _

/-- C6: the consistency checker produces no findings below two files; and
on exactly two loaded documents that both define `XCorrelator` with
definitions that are not description-equivalent (all other shared schema
names agreeing), its Critical findings are exactly one finding whose
location names both files. -/
theorem project_consistency_shared_schema :
    (∀ (api_files : List String) (fs : List (String × Yaml)),
        api_files.length < 2 →
        (validate_project_consistency api_files fs).issues = []) ∧
    (∀ (f1 f2 : String) (s1 s2 x1 x2 : Yaml),
        f1 ≠ f2 →
        (apiSchemas s1).find? "XCorrelator" = some x1 →
        (apiSchemas s2).find? "XCorrelator" = some x2 →
        _schemas_equivalent x1 x2 = false →
        (∀ n : String, n ≠ "XCorrelator" →
          _validate_shared_schema n [(f1, s1), (f2, s2)] = []) →
        criticalIssues (validate_project_consistency [f1, f2]
            [(f1, s1), (f2, s2)]).issues
          = [⟨.CRITICAL, "Shared Schema Consistency",
              "Schema XCorrelator differs between files",
              pathBaseName f1 ++ " vs " ++ pathBaseName f2,
              "Ensure XCorrelator schema is identical in all files"⟩]) := by
  constructor
  · intro api_files fs h
    rw [validate_project_consistency, if_pos h]
  · intro f1 f2 s1 s2 x1 x2 hne hx1 hx2 hneq hother
    have hload : loadSpecs [(f1, s1), (f2, s2)] [f1, f2]
        = ([], [(f1, s1), (f2, s2)]) := by
      simp [loadSpecs, listFind?, hne]
    rw [validate_project_consistency, if_neg (by simp)]
    simp only [hload]
    rw [if_neg (by simp)]
    simp only []
    have hshared : sharedSchemaIssuesAll [(f1, s1), (f2, s2)] common_schema_names
        = _validate_shared_schema "XCorrelator" [(f1, s1), (f2, s2)] := by
      rw [common_schema_names]
      rw [sharedSchemaIssuesAll, sharedSchemaIssuesAll, sharedSchemaIssuesAll,
        sharedSchemaIssuesAll, sharedSchemaIssuesAll, sharedSchemaIssuesAll,
        sharedSchemaIssuesAll, sharedSchemaIssuesAll, sharedSchemaIssuesAll,
        sharedSchemaIssuesAll, sharedSchemaIssuesAll, sharedSchemaIssuesAll,
        sharedSchemaIssuesAll, sharedSchemaIssuesAll, sharedSchemaIssuesAll,
        sharedSchemaIssuesAll, sharedSchemaIssuesAll]
      rw [hother "ErrorInfo" (by decide), hother "Device" (by decide),
        hother "DeviceResponse" (by decide), hother "PhoneNumber" (by decide),
        hother "NetworkAccessIdentifier" (by decide),
        hother "DeviceIpv4Addr" (by decide), hother "DeviceIpv6Address" (by decide),
        hother "SingleIpv4Addr" (by decide), hother "Port" (by decide),
        hother "Point" (by decide), hother "Latitude" (by decide),
        hother "Longitude" (by decide), hother "Area" (by decide),
        hother "AreaType" (by decide), hother "Circle" (by decide)]
      simp
    have hxcorr : _validate_shared_schema "XCorrelator" [(f1, s1), (f2, s2)]
        = [⟨.CRITICAL, "Shared Schema Consistency",
            "Schema XCorrelator differs between files",
            pathBaseName f1 ++ " vs " ++ pathBaseName f2,
            "Ensure XCorrelator schema is identical in all files"⟩] := by
      rw [_validate_shared_schema]
      have hc : collectSchemas "XCorrelator" [(f1, s1), (f2, s2)]
          = [(f1, x1), (f2, x2)] := by
        simp [collectSchemas, hx1, hx2]
      rw [hc, sharedSchemaFrom]
      rw [compareWithReference, compareWithReference, compareWithReference]
      rw [if_pos rfl, if_neg (Ne.symm hne)]
      rw [if_pos (by simp [hneq])]
      simp
    rw [hshared, hxcorr]
    rw [List.nil_append, criticalIssues_append, criticalIssues_append]
    rw [criticalIssues_license, criticalIssues_commonalities]
    simp [criticalIssues]

/-- First witness document: defines `XCorrelator` with one pattern. -/
def wsSpecA : Yaml :=
  .map (.cons "components" (.map (.cons "schemas" (.map (.cons "XCorrelator"
    (.map (.cons "type" (.str "string")
      (.cons "description" (.str "Correlation id")
        (.cons "pattern" (.str "^[a-z]+$") .nil)))) .nil)) .nil)) .nil)

/-- Second witness document: same schema except for its `pattern` (and its
`description`). -/
def wsSpecB : Yaml :=
  .map (.cons "components" (.map (.cons "schemas" (.map (.cons "XCorrelator"
    (.map (.cons "type" (.str "string")
      (.cons "description" (.str "The x-correlator value")
        (.cons "pattern" (.str "^[A-Z]+$") .nil)))) .nil)) .nil)) .nil)

/-- The `XCorrelator` definition of `wsSpecA`. -/
def wsSchemaA : Yaml :=
  .map (.cons "type" (.str "string")
    (.cons "description" (.str "Correlation id")
      (.cons "pattern" (.str "^[a-z]+$") .nil)))

/-- The `XCorrelator` definition of `wsSpecB`. -/
def wsSchemaB : Yaml :=
  .map (.cons "type" (.str "string")
    (.cons "description" (.str "The x-correlator value")
      (.cons "pattern" (.str "^[A-Z]+$") .nil)))

/-- Witness for C6: two concrete documents whose `XCorrelator` patterns
differ yield exactly one Critical finding naming both files. -/
theorem project_consistency_shared_schema_witness :
    criticalIssues (validate_project_consistency ["a.yaml", "b.yaml"]
        [("a.yaml", wsSpecA), ("b.yaml", wsSpecB)]).issues
      = [⟨.CRITICAL, "Shared Schema Consistency",
          "Schema XCorrelator differs between files",
          pathBaseName "a.yaml" ++ " vs " ++ pathBaseName "b.yaml",
          "Ensure XCorrelator schema is identical in all files"⟩] := by
  have hother : ∀ n : String, n ≠ "XCorrelator" →
      _validate_shared_schema n [("a.yaml", wsSpecA), ("b.yaml", wsSpecB)] = [] := by
    intro n hn
    rw [_validate_shared_schema]
    have hc : collectSchemas n [("a.yaml", wsSpecA), ("b.yaml", wsSpecB)] = [] := by
      simp [collectSchemas, apiSchemas, Yaml.getD, Yaml.mapD, YamlKVs.find?,
        wsSpecA, wsSpecB, Ne.symm hn]
    rw [hc]
    rfl
  exact project_consistency_shared_schema.2 "a.yaml" "b.yaml" wsSpecA wsSpecB
    wsSchemaA wsSchemaB (by decide) (by decide) (by decide) (by decide) hother

/-! ### Per-document error handling (`validate_api_file` lines 142-201) and
test alignment (`validate_test_alignment` lines 1279-1325,
`_find_test_files` lines 1327-1344)

`validate_api_file` wraps its whole body in `try/except`: the body either
returns a result, raises `yaml.YAMLError`, or raises any other exception.
The embedding quantifies over that body outcome (`TryOutcome`).

`validate_test_alignment` has no such wrapper around its per-file loop. In
the source, `def _validate_test_file` (line 1360) and
`def _validate_test_version_line` (line 1429) sit at column 0, after the
class body ends with `_extract_operation_ids` (line 1358): they are
module-level functions, not attributes of `CAMARAAPIValidator`, so the
call `self._validate_test_file(...)` at line 1322 raises
`AttributeError`. The embedding returns that uncaught exception
(`PyOutcome.raised`) whenever the loop is entered. -/

/-- Embeds `ValidationResult` (dataclass in the source). -/
structure ValidationResult where
  api_name : String := ""
  version : String := ""
  file_path : String := ""
  api_type : APIType := .REGULAR
  issues : List ValidationIssue := []
  checks_performed : List String := []
  manual_checks_needed : List String := []
deriving DecidableEq, Repr

/-- Embeds `TestAlignmentResult` (dataclass in the source). -/
structure TestAlignmentResult where
  api_file : String := ""
  test_files : List String := []
  issues : List ValidationIssue := []
  checks_performed : List String := []
deriving DecidableEq, Repr

/-- Outcome of a `try` body: a value, a `yaml.YAMLError`, or any other
exception. -/
inductive TryOutcome (α : Type) where
  | ok (value : α)
  | yamlError (msg : String)
  | otherError (msg : String)
deriving DecidableEq, Repr

/-- Outcome of a whole call under Python semantics: a returned value or an
uncaught exception. -/
inductive PyOutcome (α : Type) where
  | ok (value : α)
  | raised (exc : String)
deriving DecidableEq, Repr

/-- Embeds `validate_api_file` (source lines 142-201): the `try/except` wrapper
around the whole per-document run, converting a `yaml.YAMLError` into one
Critical `YAML Syntax` finding and any other exception into one Critical
`Validation Error` finding. -/
def validate_api_file (file_path : String)
    (body : TryOutcome ValidationResult) : ValidationResult :=
  match body with
  | .ok r => r
  | .yamlError m =>
    { file_path := file_path,
      issues := [⟨.CRITICAL, "YAML Syntax", "YAML parsing error: " ++ m, "", ""⟩] }
  | .otherError m =>
    { file_path := file_path,
      issues := [⟨.CRITICAL, "Validation Error", "Unexpected error: " ++ m, "", ""⟩] }

/-- Embeds `Path(p).stem`: the base name without its last suffix. -/
def pathStem (s : String) : String :=
  match strSplitChar ('.' : Char) (pathBaseName s) with
  | [] => pathBaseName s
  | [_] => pathBaseName s
  | parts => String.intercalate "." parts.dropLast

/-- Embeds `_find_test_files` (source lines 1327-1344): the exact
`api_name.feature` file plus every `api_name-*.feature` file of the test
directory listing. -/
def _find_test_files (dirFiles : List String) (api_name : String) : List String :=
  (if (api_name ++ ".feature") ∈ dirFiles then [api_name ++ ".feature"] else [])
    ++ dirFiles.filter
        (fun f => strStarts f (api_name ++ "-") && strEnds f ".feature")

/-- Embeds `validate_test_alignment` (source lines 1279-1325). Only the API-file
load is inside a `try`; the per-file loop calls
`self._validate_test_file`, whose attribute lookup fails (see the section
comment), so the loop raises on its first iteration. -/
def validate_test_alignment (api_file test_dir : String)
    (loadApi : TryOutcome Yaml) (dirFiles : List String) :
    PyOutcome TestAlignmentResult :=
  match loadApi with
  | .yamlError m =>
    .ok { api_file := api_file,
          checks_performed := ["Test alignment validation"],
          issues := [⟨.CRITICAL, "API Loading",
            "Failed to load API file: " ++ m, api_file, ""⟩] }
  | .otherError m =>
    .ok { api_file := api_file,
          checks_performed := ["Test alignment validation"],
          issues := [⟨.CRITICAL, "API Loading",
            "Failed to load API file: " ++ m, api_file, ""⟩] }
  | .ok _api_spec =>
    let api_name := pathStem api_file
    let test_files := _find_test_files dirFiles api_name
    if test_files = [] then
      .ok { api_file := api_file, test_files := test_files,
            checks_performed := ["Test alignment validation"],
            issues := [⟨.CRITICAL, "Test Files",
              "No test files found for API " ++ api_name, test_dir,
              "Create either " ++ api_name ++ ".feature or " ++ api_name
                ++ "-<operationId>.feature files"⟩] }
    else
      .raised "AttributeError: CAMARAAPIValidator object has no attribute _validate_test_file"

/-- C2: the `try/except` of `validate_api_file` converts any unexpected
internal error into exactly one Critical `Validation Error` finding (and a
YAML parse error into one Critical `YAML Syntax` finding), so the call
always returns a result; but `validate_test_alignment` does not enjoy the
same property: as soon as a test file is located, the call raises an
uncaught `AttributeError` instead of returning a result, because
`_validate_test_file` is not an attribute of the validator class. -/
theorem validation_error_handling :
    (∀ file_path m : String,
        validate_api_file file_path (.otherError m)
          = { file_path := file_path,
              issues := [⟨.CRITICAL, "Validation Error",
                "Unexpected error: " ++ m, "", ""⟩] }) ∧
    (∀ file_path m : String,
        validate_api_file file_path (.yamlError m)
          = { file_path := file_path,
              issues := [⟨.CRITICAL, "YAML Syntax",
                "YAML parsing error: " ++ m, "", ""⟩] }) ∧
    validate_test_alignment "device-location.yaml" "Test_definitions"
        (.ok (.map .nil)) ["device-location.feature"]
      = .raised "AttributeError: CAMARAAPIValidator object has no attribute _validate_test_file" := by
  refine ⟨fun _ _ => rfl, fun _ _ => rfl, ?_⟩
  decide

/-- C5 concerns the Feature-line and operation-reference checks of
`_validate_test_file`; the source never reaches them. A concrete run with
a located test document whose content references an unknown operation:
the call raises before reading the test file, so no Feature-line check
runs and no Critical finding about unknown operation references is ever
recorded. -/
theorem test_alignment_checks_unreachable :
    validate_test_alignment "quality-on-demand.yaml" "Test_definitions"
        (.ok (.map (.cons "paths" (.map (.cons "/sessions" (.map (.cons "get"
          (.map (.cons "operationId" (.str "getSession") .nil)) .nil)) .nil)) .nil)))
        ["quality-on-demand.feature", "quality-on-demand-createSession.feature"]
      = .raised "AttributeError: CAMARAAPIValidator object has no attribute _validate_test_file" := by
  decide

/-! ### Release-metadata validator (`MetadataValidator`)

The script `validate-release-plan.py` is not under `src/` — only its unit
tests (`test_validate_release_plan.py`) are. The definitions of this
section are therefore modelled from the specification (sections 4.1-4.4, 7
and 8) and from the behaviour those tests assert; each carries a
`Modelled from the spec:` note. -/

/-- Modelled from the spec: outcome of loading the metadata file
(`NotFound`, `ParseError`, or a parsed document). -/
inductive MetaLoad where
  | notFound
  | parseError (msg : String)
  | doc (d : Yaml)
deriving DecidableEq

/-- Modelled from the spec: outcome of resolving and running the external
schema validator — an explicit schema path that does not resolve, a schema
file that does not parse, no schema resolvable for the detected type, or
the list of nonconformity messages the schema validator reports. -/
inductive SchemaLoad where
  | notFound
  | parseError
  | cannotFind
  | found (violations : List String)
deriving DecidableEq, Repr

/-- Modelled from the spec: everything `validate()` consumes besides the
caller-set modes — the load outcome, the schema outcome and the listing of
`code/API_definitions` used by the optional file-existence check. -/
structure MVInput where
  load : MetaLoad
  schemaLoad : SchemaLoad
  fileListing : List String
deriving DecidableEq

/-- Modelled from the spec: the validator owns an errors list and a
warnings list (`self.errors` / `self.warnings` in the tests). -/
structure MetadataValidator where
  errors : List String := []
  warnings : List String := []
deriving DecidableEq, Repr

/-- Conversion of an embedded sequence to a Lean list. -/
def YamlList.toList : YamlList → List Yaml
  | .nil => []
  | .cons v r => v :: toList r

/-- Modelled from the spec (4.2): a `repository` mapping with a
`target_release_type` key is a release plan, one with a `release_type` key
is release metadata; absence of `repository`, or both or neither key,
fails classification. -/
def detectType (d : Yaml) : Option String :=
  match d.getD "repository" .nullV with
  | .map repo =>
    let hasPlan := (repo.find? "target_release_type").isSome
    let hasMeta := (repo.find? "release_type").isSome
    if hasPlan && !hasMeta then some "release-plan"
    else if hasMeta && !hasPlan then some "release-metadata"
    else none
  | _ => none

/-- Modelled from the spec (4.4): the release-type/API-status
compatibility matrix — `pre-release-alpha` forbids only `draft`,
`pre-release-rc` forbids `draft` and `alpha`, `public-release` and
`maintenance-release` allow only `public`, `none` allows everything. -/
def allowed_status (release_type status : String) : Bool :=
  if release_type = "pre-release-alpha" then !(status == "draft")
  else if release_type = "pre-release-rc" then
    !(status == "draft" || status == "alpha")
  else if release_type = "public-release" then status == "public"
  else if release_type = "maintenance-release" then status == "public"
  else true

/-- Modelled from the spec and the tests: the human description of the
statuses a release type allows, used in the violation message. -/
def allowedDesc (release_type : String) : String :=
  if release_type = "pre-release-alpha" then "not draft"
  else if release_type = "pre-release-rc" then "rc/public"
  else if release_type = "public-release" then "public"
  else if release_type = "maintenance-release" then "public"
  else "any"

/-- Modelled from the spec (4.4): the violation message cites the API and
the offending status. -/
def statusErrorMsg (release_type api_name status : String) : String :=
  "API " ++ api_name ++ ": target_api_status " ++ status ++ " violates "
    ++ release_type ++ " (allowed: " ++ allowedDesc release_type ++ ")"

/-- The key that carries an API status: `target_api_status` in a plan,
`status` in release metadata. -/
def apiStatusKey (isPlan : Bool) : String :=
  if isPlan then "target_api_status" else "status"

/-- The key that carries the release type. -/
def releaseTypeKey (isPlan : Bool) : String :=
  if isPlan then "target_release_type" else "release_type"

/-- Modelled from the spec (4.4): the per-entry release-type/API-status
check — each violating API entry independently yields one error. -/
def releaseTypeCheck (release_type statusKey : String) :
    List Yaml → List String
  | [] => []
  | api :: rest =>
    (if allowed_status release_type ((api.getD statusKey (.str "")).strD "") then []
     else [statusErrorMsg release_type ((api.getD "api_name" (.str "")).strD "")
            ((api.getD statusKey (.str "")).strD "")])
      ++ releaseTypeCheck release_type statusKey rest

/-- Modelled from the spec (4.4): track consistency —
`release_track == "meta-release"` requires a `meta_release` field. -/
def trackErrors (repo : YamlKVs) : List String :=
  if ((repo.find? "release_track").getD .nullV).strD "" = "meta-release"
      && (repo.find? "meta_release").isNone then
    ["release_track meta-release requires a meta_release field"]
  else []

/-- Modelled from the spec (4.4): the non-blocking advisory — an
`independent` track combined with a present `meta_release` field. -/
def trackWarnings (repo : YamlKVs) : List String :=
  if ((repo.find? "release_track").getD .nullV).strD "" = "independent"
      && (repo.find? "meta_release").isSome then
    ["release_track independent normally carries no meta_release field"]
  else []

/-- Modelled from the spec (4.4): strict-phase-1 mode — `release_date` and
`src_commit_sha` must each be explicitly null. -/
def phase1Errors (strict_phase1 : Bool) (repo : YamlKVs) : List String :=
  if !strict_phase1 then []
  else
    (if ((repo.find? "release_date").getD .nullV) ≠ .nullV then
      ["release_date must be null in phase 1"]
     else [])
      ++ (if ((repo.find? "src_commit_sha").getD .nullV) ≠ .nullV then
        ["src_commit_sha must be null in phase 1"]
       else [])

/-- Modelled from the spec (4.4): the optional file-existence check — a
non-draft API whose companion definition file is absent is one warning
naming the API; draft APIs are exempt. -/
def fileCheckWarnings (check_files : Bool) (statusKey : String)
    (fileListing : List String) : List Yaml → List String
  | [] => []
  | api :: rest =>
    (if check_files
        && ((api.getD statusKey (.str "")).strD "" != "draft")
        && !(fileListing.contains
              (((api.getD "api_name" (.str "")).strD "") ++ ".yaml")) then
      ["API definition file not found for "
        ++ ((api.getD "api_name" (.str "")).strD "")]
     else [])
      ++ fileCheckWarnings check_files statusKey fileListing rest

/-- Modelled from the spec: `MetadataValidator.validate()` — load,
classify, schema-validate, then run the semantic rules; load, classify and
schema-location failures halt with one error; schema violations and
semantic violations accumulate; the call returns `True` exactly when the
errors list is empty, and warnings accumulate separately. -/
def MetadataValidator.validate (v : MetadataValidator) (inp : MVInput)
    (strict_phase1 check_files : Bool) : MetadataValidator × Bool :=
  match inp.load with
  | .notFound =>
    ({ v with errors := v.errors ++ ["Metadata file not found"] }, false)
  | .parseError m =>
    ({ v with errors := v.errors ++ ["YAML parsing error: " ++ m] }, false)
  | .doc d =>
    match detectType d with
    | none =>
      ({ v with errors := v.errors ++ ["Cannot determine metadata type"] }, false)
    | some mtype =>
      match inp.schemaLoad with
      | .notFound =>
        ({ v with errors := v.errors ++ ["Schema file not found"] }, false)
      | .parseError =>
        ({ v with errors := v.errors ++ ["Schema file YAML parsing error"] }, false)
      | .cannotFind =>
        ({ v with errors := v.errors ++ ["Cannot find schema file"] }, false)
      | .found violations =>
        let schemaErrors := violations.map
          (fun m => "Schema validation error: " ++ m)
        let repo := (d.getD "repository" (.map .nil)).mapD
        let isPlan := mtype = "release-plan"
        let release_type :=
          ((repo.find? (releaseTypeKey isPlan)).getD .nullV).strD ""
        let apis := (d.getD "apis" (.list .nil)).listD.toList
        let errs := schemaErrors ++ trackErrors repo
          ++ releaseTypeCheck release_type (apiStatusKey isPlan) apis
          ++ phase1Errors strict_phase1 repo
        let warns := trackWarnings repo
          ++ fileCheckWarnings check_files (apiStatusKey isPlan)
              inp.fileListing apis
        let v2 : MetadataValidator :=
          { errors := v.errors ++ errs, warnings := v.warnings ++ warns }
        (v2, v2.errors.isEmpty)

/-- A metadata document with an `independent` track and a `meta_release`
field: the advisory scenario. -/
def docIndepMeta : Yaml :=
  .map (.cons "repository" (.map (.cons "release_track" (.str "independent")
    (.cons "meta_release" (.str "Fall26")
      (.cons "target_release_tag" (.str "r1.1")
        (.cons "target_release_type" (.str "public-release") .nil)))))
    (.cons "apis" (.list (.cons (.map (.cons "api_name" (.str "test-api")
      (.cons "target_api_version" (.str "1.0.0")
        (.cons "target_api_status" (.str "public") .nil)))) .nil)) .nil))

/-- C1: `validate()` returns `True` exactly when the errors list is empty
after the run; the returned Boolean never depends on the warnings list;
and in the concrete advisory scenario (`independent` track with a
`meta_release` field) the run ends with a non-empty warnings list and
still returns `True`. -/
theorem validate_true_iff_no_errors :
    (∀ (v : MetadataValidator) (inp : MVInput) (s c : Bool),
        (v.validate inp s c).2 = (v.validate inp s c).1.errors.isEmpty) ∧
    (∀ (e w1 w2 : List String) (inp : MVInput) (s c : Bool),
        (MetadataValidator.validate ⟨e, w1⟩ inp s c).2
          = (MetadataValidator.validate ⟨e, w2⟩ inp s c).2) ∧
    ((MetadataValidator.validate ⟨[], []⟩
        ⟨.doc docIndepMeta, .found [], []⟩ false false).2 = true ∧
      (MetadataValidator.validate ⟨[], []⟩
        ⟨.doc docIndepMeta, .found [], []⟩ false false).1.warnings ≠ []) := by
  refine ⟨?_, ?_, by decide, by decide⟩
  · intro v inp s c
    rw [MetadataValidator.validate]
    split
    · simp
    · simp
    · split
      · simp
      · split <;> simp
  · intro e w1 w2 inp s c
    rw [MetadataValidator.validate, MetadataValidator.validate]
    rcases hl : inp.load with _ | m | d <;> simp only [hl]
    rcases hdet : detectType d with _ | mtype <;> simp only [hdet]
    rcases hsl : inp.schemaLoad with _ | _ | _ | viol <;> simp only [hsl]

/-- A plan declaring `pre-release-rc` with an `alpha` API. -/
def docRcAlpha : Yaml :=
  .map (.cons "repository" (.map (.cons "release_track" (.str "independent")
    (.cons "target_release_tag" (.str "r1.1")
      (.cons "target_release_type" (.str "pre-release-rc") .nil))))
    (.cons "apis" (.list (.cons (.map (.cons "api_name" (.str "test-api")
      (.cons "target_api_version" (.str "1.0.0")
        (.cons "target_api_status" (.str "alpha") .nil)))) .nil)) .nil))

/-- A plan declaring release type `none` with a `draft` API. -/
def docNoneDraft : Yaml :=
  .map (.cons "repository" (.map (.cons "release_track" (.str "independent")
    (.cons "target_release_tag" .nullV
      (.cons "target_release_type" (.str "none") .nil))))
    (.cons "apis" (.list (.cons (.map (.cons "api_name" (.str "test-api")
      (.cons "target_api_version" (.str "0.1.0")
        (.cons "target_api_status" (.str "draft") .nil)))) .nil)) .nil))

/-- C4: the compatibility matrix holds exactly as tabulated
(`pre-release-alpha` forbids only `draft`; `pre-release-rc` forbids
`draft` and `alpha`; `public-release` and `maintenance-release` allow only
`public`; `none` allows everything); each violating API entry
independently yields one error citing the offending status; and the two
tabulated examples hold end to end: `pre-release-rc` with an `alpha` API
fails citing `alpha`, `none` with a `draft` API succeeds. -/
theorem release_type_status_matrix :
    (∀ status : String,
        (allowed_status "pre-release-alpha" status = false ↔ status = "draft") ∧
        (allowed_status "pre-release-rc" status = false
          ↔ (status = "draft" ∨ status = "alpha")) ∧
        (allowed_status "public-release" status = true ↔ status = "public") ∧
        (allowed_status "maintenance-release" status = true ↔ status = "public") ∧
        allowed_status "none" status = true) ∧
    (∀ (release_type statusKey : String) (apis : List Yaml),
        releaseTypeCheck release_type statusKey apis
          = (apis.filter (fun api =>
              !(allowed_status release_type ((api.getD statusKey (.str "")).strD "")))).map
                (fun api => statusErrorMsg release_type
                  ((api.getD "api_name" (.str "")).strD "")
                  ((api.getD statusKey (.str "")).strD ""))) ∧
    (∀ release_type api_name status : String,
        strContains (statusErrorMsg release_type api_name status) status = true) ∧
    ((MetadataValidator.validate ⟨[], []⟩
        ⟨.doc docRcAlpha, .found [], []⟩ false false).2 = false ∧
      strContains ((MetadataValidator.validate ⟨[], []⟩
        ⟨.doc docRcAlpha, .found [], []⟩ false false).1.errors.headD "")
        "alpha" = true ∧
      (MetadataValidator.validate ⟨[], []⟩
        ⟨.doc docNoneDraft, .found [], []⟩ false false).2 = true ∧
      (MetadataValidator.validate ⟨[], []⟩
        ⟨.doc docNoneDraft, .found [], []⟩ false false).1.errors = []) := by
  refine ⟨?_, ?_, ?_, by decide, by decide, by decide, by decide⟩
  · intro status
    refine ⟨?_, ?_, ?_, ?_, ?_⟩
    · simp [allowed_status]
    · simp only [allowed_status]
      norm_num
      tauto
    · simp [allowed_status]
    · simp [allowed_status]
    · simp [allowed_status]
  · intro release_type statusKey apis
    induction apis with
    | nil => rfl
    | cons api rest ih =>
      by_cases h : allowed_status release_type ((api.getD statusKey (.str "")).strD "")
      · simp [releaseTypeCheck, List.filter_cons, h, ih]
      · simp [releaseTypeCheck, List.filter_cons, h, ih]
  · intro release_type api_name status
    rw [statusErrorMsg, strContains]
    have hshape : ("API " ++ api_name ++ ": target_api_status " ++ status
        ++ " violates " ++ release_type ++ " (allowed: "
        ++ allowedDesc release_type ++ ")").data
        = ("API " ++ api_name ++ ": target_api_status ").data ++ status.data
          ++ (" violates " ++ release_type ++ " (allowed: "
            ++ allowedDesc release_type ++ ")").data := by
      simp [String.data_append]
    rw [hshape]
    exact listContains_of_append _ _ _

/-- Witness for C4: the matrix part of `release_type_status_matrix`
instantiated at a concrete status, the per-entry part at a concrete entry
list, and the citation part at a concrete message. -/
theorem release_type_status_matrix_witness :
    (allowed_status "pre-release-rc" "alpha" = false
      ↔ ("alpha" = "draft" ∨ "alpha" = "alpha")) ∧
    releaseTypeCheck "pre-release-rc" "target_api_status"
        [.map (.cons "api_name" (.str "test-api")
          (.cons "target_api_status" (.str "alpha") .nil))]
      = ([(.map (.cons "api_name" (.str "test-api")
          (.cons "target_api_status" (.str "alpha") .nil)) : Yaml)].filter
            (fun api => !(allowed_status "pre-release-rc"
              ((api.getD "target_api_status" (.str "")).strD "")))).map
              (fun api => statusErrorMsg "pre-release-rc"
                ((api.getD "api_name" (.str "")).strD "")
                ((api.getD "target_api_status" (.str "")).strD "")) ∧
    strContains (statusErrorMsg "pre-release-rc" "test-api" "alpha") "alpha"
      = true :=
  ⟨(release_type_status_matrix.1 "alpha").2.1,
   release_type_status_matrix.2.1 "pre-release-rc" "target_api_status"
     [.map (.cons "api_name" (.str "test-api")
       (.cons "target_api_status" (.str "alpha") .nil))],
   release_type_status_matrix.2.2.1 "pre-release-rc" "test-api" "alpha"⟩

end CamaraValidator
